import Mathlib

/-!
Verification of the residential building energy simulator core
(`gains_and_losses.py`, `net_energy_needs.py` and the free-function
variants under `python-files/functions/`).

Monthly series are modelled as `List ℝ`; numpy elementwise arithmetic
becomes `List.map` / `List.zipWith`, and the `np.append` accumulation
loops are semantically maps over the flattened input.  Python float
exponentiation `x ** a` is modelled by real exponentiation `x ^ a`
(`Real.rpow`).
-/

/-! ### Generic list helpers -/

/-- `getD` through a `map`, for an index inside the list. -/
theorem getD_map_of_lt {α β : Type} (f : α → β) (l : List α) (i : ℕ)
    (hi : i < l.length) (d : β) (d₀ : α) :
    (l.map f).getD i d = f (l.getD i d₀) := by
  rw [List.getD_eq_getElem _ _ (by simpa using hi), List.getD_eq_getElem _ _ hi,
    List.getElem_map]

/-- `getD` through a `zipWith`, for an index inside both lists. -/
theorem getD_zipWith_of_lt {α β γ : Type} (f : α → β → γ) (as : List α) (bs : List β)
    (i : ℕ) (ha : i < as.length) (hb : i < bs.length) (d : γ) (da : α) (db : β) :
    (List.zipWith f as bs).getD i d = f (as.getD i da) (bs.getD i db) := by
  rw [List.getD_eq_getElem _ _ (by simp [List.length_zipWith]; omega),
    List.getD_eq_getElem _ _ ha, List.getD_eq_getElem _ _ hb, List.getElem_zipWith]

/-- Every element of a `zipWith` comes from a pair of elements of the inputs. -/
theorem exists_of_mem_zipWith {α β γ : Type} {f : α → β → γ} :
    ∀ {as : List α} {bs : List β} {c : γ}, c ∈ List.zipWith f as bs →
      ∃ a b, a ∈ as ∧ b ∈ bs ∧ c = f a b := by
  intro as
  induction as with
  | nil => intro bs c h; simp at h
  | cons a as ih =>
    intro bs c h
    cases bs with
    | nil => simp at h
    | cons b bs =>
      rcases (List.mem_cons).1 h with h | h
      · exact ⟨a, b, List.mem_cons_self a as, List.mem_cons_self b bs, h⟩
      · obtain ⟨a', b', ha', hb', hc⟩ := ih h
        exact ⟨a', b', List.mem_cons_of_mem _ ha', List.mem_cons_of_mem _ hb', hc⟩

/-! ### `gains_and_losses.py`, class `InternalGains` -/

namespace InternalGains

/-- `InternalGains.internal_gains`: piecewise-in-volume monthly internal gains,
including the source's redundant `V_sec_i / V_EPR` factor. -/
noncomputable def internal_gains (V_sec_i : ℝ) (t_m : List ℝ) : List ℝ :=
  if V_sec_i ≤ 192 then
    t_m.map (fun t => (1.41 * V_sec_i + 78) * (V_sec_i / V_sec_i) * t)
  else
    t_m.map (fun t => (0.67 * V_sec_i + 220) * (V_sec_i / V_sec_i) * t)

/-- `__init__`: heating internal gains. -/
noncomputable def Q_int_heat_sec_i_m (V_sec_i : ℝ) (t_m : List ℝ) : List ℝ :=
  internal_gains V_sec_i t_m

/-- `__init__`: overheating internal gains are the heating ones. -/
noncomputable def Q_int_overh_sec_i_m (V_sec_i : ℝ) (t_m : List ℝ) : List ℝ :=
  Q_int_heat_sec_i_m V_sec_i t_m

/-- `__init__`: cooling internal gains are the heating ones. -/
noncomputable def Q_int_cool_sec_i_m (V_sec_i : ℝ) (t_m : List ℝ) : List ℝ :=
  Q_int_heat_sec_i_m V_sec_i t_m

end InternalGains

/-! ### `net_energy_needs.py`, class `NetHeatingNeeds` -/

namespace NetHeatingNeeds

/-- `heat_balance_ratio`: monthly gains over losses (numpy elementwise). -/
noncomputable def heat_balance_ratio (Q_solar Q_int Q_trans Q_vent : List ℝ) : List ℝ :=
  List.zipWith (fun g l => g / l)
    (List.zipWith (fun a b => a + b) Q_int Q_solar)
    (List.zipWith (fun a b => a + b) Q_trans Q_vent)

/-- `heating_allowance_factor`: 1 below the 2.5 threshold, else 0, per month. -/
noncomputable def heating_allowance_factor (gamma_m : List ℝ) : List ℝ :=
  gamma_m.map (fun item => if item < 2.5 then 1 else 0)

/-- `utilization_factor_heating`: scalar `a = 1 + τ/54000`,
branch on exact equality `γ = 1`. -/
noncomputable def utilization_factor_heating (C H_trans H_vent : ℝ)
    (gamma_m : List ℝ) : List ℝ :=
  let tau := C / (H_trans + H_vent)
  let a := 1 + tau / 54000
  gamma_m.map (fun item =>
    if item = 1 then a / (a + 1)
    else (1 - item ^ a) / (1 - item ^ (a + 1)))

/-- `net_heating_demand`: `(loss − η·gain) · f_allow`, per month. -/
noncomputable def net_heating_demand (Q_solar Q_int Q_trans Q_vent eta f_allow : List ℝ) :
    List ℝ :=
  let Q_loss := List.zipWith (fun a b => a + b) Q_trans Q_vent
  let Q_gain := List.zipWith (fun a b => a + b) Q_int Q_solar
  List.zipWith (fun a b => a * b)
    (List.zipWith (fun l x => l - x) Q_loss (List.zipWith (fun a b => a * b) eta Q_gain))
    f_allow

/-- `__init__`: the full heating pipeline producing `Q_heat_net_sec_i_m`. -/
noncomputable def Q_heat_net_sec_i_m (Q_solar Q_int Q_trans Q_vent : List ℝ)
    (C H_trans H_vent : ℝ) : List ℝ :=
  let gamma := heat_balance_ratio Q_solar Q_int Q_trans Q_vent
  let f_allow := heating_allowance_factor gamma
  let eta := utilization_factor_heating C H_trans H_vent gamma
  net_heating_demand Q_solar Q_int Q_trans Q_vent eta f_allow

end NetHeatingNeeds

/-! ### `net_energy_needs.py`, class `NetDHWNeeds` -/

namespace NetDHWNeeds

/-- `net_dhw_demand_bath`: per-bath monthly hot water demand. -/
noncomputable def net_dhw_demand_bath (V_sec_i r_water_bath_i_net N_bath : ℝ)
    (t_m : List ℝ) : List ℝ :=
  let f_bath_i := 1 / N_bath
  t_m.map (fun t =>
    r_water_bath_i_net * f_bath_i * max 64 (64 + 0.220 * (V_sec_i - 192)) * t)

/-- `net_dhw_demand_sink`: per-sink monthly hot water demand. -/
noncomputable def net_dhw_demand_sink (V_sec_i r_water_sink_i_net N_sink : ℝ)
    (t_m : List ℝ) : List ℝ :=
  let f_sink_i := 1 / N_sink
  t_m.map (fun t =>
    r_water_sink_i_net * f_sink_i * max 16 (16 + 0.055 * (V_sec_i - 192)) * t)

/-- `net_dhw_demand`: total demand `N_bath·Q_bath + N_sink·Q_sink` per month. -/
noncomputable def net_dhw_demand (N_bath : ℝ) (Q_bath_m : List ℝ) (N_sink : ℝ)
    (Q_sink_m : List ℝ) : List ℝ :=
  List.zipWith (fun qb qs => N_bath * qb + N_sink * qs) Q_bath_m Q_sink_m

/-- `__init__`: the DHW pipeline with `N_bath = N_sink = 1` and reduction factors 1. -/
noncomputable def Q_water_sec_i_net_m (V_sec_i : ℝ) (t_m : List ℝ) : List ℝ :=
  net_dhw_demand 1 (net_dhw_demand_bath V_sec_i 1 1 t_m)
    1 (net_dhw_demand_sink V_sec_i 1 1 t_m)

end NetDHWNeeds

/-! ### `net_energy_needs.py`, class `OverHeatingRisk` -/

namespace OverHeatingRisk

/-- `utilization_factor_overheating`: `a` varies monthly through the
monthly ventilation coefficient, zipped with the monthly ratio. -/
noncomputable def utilization_factor_overheating (C H_trans : ℝ)
    (H_vent_m gamma_m : List ℝ) : List ℝ :=
  let a_m := H_vent_m.map (fun h => 1 + C / (H_trans + h) / 54000)
  List.zipWith (fun a gamma =>
    if gamma = 1 then a / (a + 1)
    else (1 - gamma ^ a) / (1 - gamma ^ (a + 1))) a_m gamma_m

/-- `active_cooling_probability`: clamp of `(I − 1000)/(6500 − 1000)` to `[0,1]`. -/
noncomputable def active_cooling_probability (I_overh_sec_i : ℝ) : ℝ :=
  max 0 (min ((I_overh_sec_i - 1000) / (6500 - 1000)) 1)

/-- `time_fraction_over_25C`: clamp of `0.05·I/6500` to `[0,1]`. -/
noncomputable def time_fraction_over_25C (I_overh_sec_i : ℝ) : ℝ :=
  max 0 (min (0.05 * I_overh_sec_i / 6500) 1)

end OverHeatingRisk

/-! ### `net_energy_needs.py`, class `NetCoolingNeeds` -/

namespace NetCoolingNeeds

/-- `heat_balance_ratio`: monthly losses over gains (inverted ratio). -/
noncomputable def heat_balance_ratio (Q_solar Q_int Q_trans Q_vent : List ℝ) : List ℝ :=
  List.zipWith (fun l g => l / g)
    (List.zipWith (fun a b => a + b) Q_trans Q_vent)
    (List.zipWith (fun a b => a + b) Q_int Q_solar)

/-- `cooling_allowance_factor`: 1 below the 2.5 threshold, else 0, per month. -/
noncomputable def cooling_allowance_factor (lambda_m : List ℝ) : List ℝ :=
  lambda_m.map (fun item => if item < 2.5 then 1 else 0)

/-- `utilization_factor_cooling`: monthly `a` from the monthly ventilation
coefficient, zipped with the monthly ratio. -/
noncomputable def utilization_factor_cooling (C H_trans : ℝ)
    (H_vent_m lambda_m : List ℝ) : List ℝ :=
  let a_m := H_vent_m.map (fun h => 1 + C / (H_trans + h) / 54000)
  List.zipWith (fun a gamma =>
    if gamma = 1 then a / (a + 1)
    else (1 - gamma ^ a) / (1 - gamma ^ (a + 1))) a_m lambda_m

/-- `net_cooling_demand`: `p_cool · (1 − 0) · (gain − η·loss) · f_allow` per month. -/
noncomputable def net_cooling_demand (Q_solar Q_int Q_trans Q_vent eta f_allow : List ℝ)
    (p_cool : ℝ) : List ℝ :=
  let Q_loss := List.zipWith (fun a b => a + b) Q_trans Q_vent
  let Q_gain := List.zipWith (fun a b => a + b) Q_int Q_solar
  let Q_princ := List.zipWith (fun a b => a * b)
    (List.zipWith (fun g x => g - x) Q_gain (List.zipWith (fun a b => a * b) eta Q_loss))
    f_allow
  let f_cool_geo : ℝ := 0
  Q_princ.map (fun q => p_cool * (1 - f_cool_geo) * q)

/-- `__init__`: the full cooling pipeline producing `Q_cool_net_sec_i_m`. -/
noncomputable def Q_cool_net_sec_i_m (Q_solar Q_int Q_trans Q_vent : List ℝ)
    (C H_trans : ℝ) (H_vent_m : List ℝ) (p_cool : ℝ) : List ℝ :=
  let lam := heat_balance_ratio Q_solar Q_int Q_trans Q_vent
  let f_allow := cooling_allowance_factor lam
  let eta := utilization_factor_cooling C H_trans H_vent_m lam
  net_cooling_demand Q_solar Q_int Q_trans Q_vent eta f_allow p_cool

end NetCoolingNeeds

/-! ### `python-files/functions/net_heating_energy_needs.py` (free functions) -/

namespace PyFunctions

/-- Free function `heat_balance_ratio_heating`. -/
noncomputable def heat_balance_ratio_heating (Q_solar Q_int Q_trans Q_vent : List ℝ) :
    List ℝ :=
  List.zipWith (fun g l => g / l)
    (List.zipWith (fun a b => a + b) Q_int Q_solar)
    (List.zipWith (fun a b => a + b) Q_trans Q_vent)

/-- Free function `utilization_factor_heating`. -/
noncomputable def utilization_factor_heating (C H_trans H_vent : ℝ)
    (gamma_m : List ℝ) : List ℝ :=
  let tau := C / (H_trans + H_vent)
  let a := 1 + tau / 54000
  gamma_m.map (fun item =>
    if item = 1 then a / (a + 1)
    else (1 - item ^ a) / (1 - item ^ (a + 1)))

/-- Free function `allowance_factor_heating`. -/
noncomputable def allowance_factor_heating (gamma_m : List ℝ) : List ℝ :=
  gamma_m.map (fun item => if item < 2.5 then 1 else 0)

/-- Free function `net_heating_demand`: computes the raw demand first and
applies the allowance factor afterwards. -/
noncomputable def net_heating_demand (C H_trans H_vent : ℝ)
    (Q_solar Q_int Q_trans Q_vent : List ℝ) : List ℝ :=
  let Q_loss := List.zipWith (fun a b => a + b) Q_trans Q_vent
  let Q_gain := List.zipWith (fun a b => a + b) Q_int Q_solar
  let gamma := heat_balance_ratio_heating Q_solar Q_int Q_trans Q_vent
  let eta := utilization_factor_heating C H_trans H_vent gamma
  let Q_net := List.zipWith (fun l x => l - x) Q_loss
    (List.zipWith (fun a b => a * b) eta Q_gain)
  let f_allow := allowance_factor_heating gamma
  List.zipWith (fun a b => a * b) Q_net f_allow

/-- Free function `net_dhw_demand_bath` (`python-files/functions/net_dhw_needs.py`). -/
noncomputable def net_dhw_demand_bath (V_sec_i : ℝ) (t_m : List ℝ)
    (N_bath r_water_bath_i_net : ℝ) : List ℝ :=
  let f_bath_i := 1 / N_bath
  t_m.map (fun t =>
    r_water_bath_i_net * f_bath_i * max 64 (64 + 0.220 * (V_sec_i - 192)) * t)

/-- Free function `net_dhw_demand_sink` (`python-files/functions/net_dhw_needs.py`). -/
noncomputable def net_dhw_demand_sink (V_sec_i : ℝ) (t_m : List ℝ)
    (N_sink r_water_sink_i_net : ℝ) : List ℝ :=
  let f_sink_i := 1 / N_sink
  t_m.map (fun t =>
    r_water_sink_i_net * f_sink_i * max 16 (16 + 0.055 * (V_sec_i - 192)) * t)

/-- Free function `net_dhw_demand`: calls bath and sink with the default
reduction factor 1 and totals `N_bath·Q_bath + N_sink·Q_sink`. -/
noncomputable def net_dhw_demand (V_sec_i : ℝ) (t_m : List ℝ) (N_bath N_sink : ℝ) :
    List ℝ :=
  let Q_bath := net_dhw_demand_bath V_sec_i t_m N_bath 1
  let Q_sink := net_dhw_demand_sink V_sec_i t_m N_sink 1
  List.zipWith (fun qb qs => N_bath * qb + N_sink * qs) Q_bath Q_sink

end PyFunctions

/-! ### Shared elementwise lemmas -/

/-- Elementwise value of `NetHeatingNeeds.net_heating_demand`. -/
theorem net_heating_demand_getD (Qs Qi Qt Qv eta f : List ℝ) (m : ℕ)
    (h1 : m < Qs.length) (h2 : m < Qi.length) (h3 : m < Qt.length) (h4 : m < Qv.length)
    (h5 : m < eta.length) (h6 : m < f.length) :
    (NetHeatingNeeds.net_heating_demand Qs Qi Qt Qv eta f).getD m 0
      = (Qt.getD m 0 + Qv.getD m 0
          - eta.getD m 0 * (Qi.getD m 0 + Qs.getD m 0)) * f.getD m 0 := by
  simp only [NetHeatingNeeds.net_heating_demand]
  rw [getD_zipWith_of_lt _ _ _ m (by simp [List.length_zipWith]; omega) h6 0 0 0,
    getD_zipWith_of_lt _ _ _ m (by simp [List.length_zipWith]; omega)
      (by simp [List.length_zipWith]; omega) 0 0 0,
    getD_zipWith_of_lt _ _ _ m h3 h4 0 0 0,
    getD_zipWith_of_lt _ _ _ m h5 (by simp [List.length_zipWith]; omega) 0 0 0,
    getD_zipWith_of_lt _ _ _ m h2 h1 0 0 0]

/-- Elementwise value of `NetCoolingNeeds.net_cooling_demand`. -/
theorem net_cooling_demand_getD (Qs Qi Qt Qv eta f : List ℝ) (p : ℝ) (m : ℕ)
    (h1 : m < Qs.length) (h2 : m < Qi.length) (h3 : m < Qt.length) (h4 : m < Qv.length)
    (h5 : m < eta.length) (h6 : m < f.length) :
    (NetCoolingNeeds.net_cooling_demand Qs Qi Qt Qv eta f p).getD m 0
      = p * (1 - 0) * ((Qi.getD m 0 + Qs.getD m 0
          - eta.getD m 0 * (Qt.getD m 0 + Qv.getD m 0)) * f.getD m 0) := by
  simp only [NetCoolingNeeds.net_cooling_demand]
  rw [getD_map_of_lt _ _ m (by simp [List.length_zipWith]; omega) 0 0,
    getD_zipWith_of_lt _ _ _ m (by simp [List.length_zipWith]; omega) h6 0 0 0,
    getD_zipWith_of_lt _ _ _ m (by simp [List.length_zipWith]; omega)
      (by simp [List.length_zipWith]; omega) 0 0 0,
    getD_zipWith_of_lt _ _ _ m h2 h1 0 0 0,
    getD_zipWith_of_lt _ _ _ m h5 (by simp [List.length_zipWith]; omega) 0 0 0,
    getD_zipWith_of_lt _ _ _ m h3 h4 0 0 0]

/-! ### Claims -/

/-- C4: the allowance factor (identical rule for heating on γ and cooling on λ)
is a step function of the month's ratio: value `if ratio < 2.5 then 1 else 0`,
each element in `{0, 1}`, flipping from 1 to 0 exactly at the boundary 2.5. -/
theorem allowance_factor_step (gamma_m : List ℝ) (m : ℕ) (hm : m < gamma_m.length) :
    (NetHeatingNeeds.heating_allowance_factor gamma_m).getD m 0
        = (if gamma_m.getD m 0 < 2.5 then 1 else 0) ∧
    (NetCoolingNeeds.cooling_allowance_factor gamma_m).getD m 0
        = (if gamma_m.getD m 0 < 2.5 then 1 else 0) ∧
    ((NetHeatingNeeds.heating_allowance_factor gamma_m).getD m 0 = 1 ∨
     (NetHeatingNeeds.heating_allowance_factor gamma_m).getD m 0 = 0) ∧
    (gamma_m.getD m 0 < 2.5 →
      (NetHeatingNeeds.heating_allowance_factor gamma_m).getD m 0 = 1) ∧
    (2.5 ≤ gamma_m.getD m 0 →
      (NetHeatingNeeds.heating_allowance_factor gamma_m).getD m 0 = 0) := by
  have h1 : (NetHeatingNeeds.heating_allowance_factor gamma_m).getD m 0
      = (if gamma_m.getD m 0 < 2.5 then 1 else 0) := by
    simp only [NetHeatingNeeds.heating_allowance_factor]
    rw [getD_map_of_lt _ _ m hm 0 0]
  have h2 : (NetCoolingNeeds.cooling_allowance_factor gamma_m).getD m 0
      = (if gamma_m.getD m 0 < 2.5 then 1 else 0) := by
    simp only [NetCoolingNeeds.cooling_allowance_factor]
    rw [getD_map_of_lt _ _ m hm 0 0]
  refine ⟨h1, h2, ?_, ?_, ?_⟩
  · rw [h1]; split
    · exact Or.inl rfl
    · exact Or.inr rfl
  · intro h; rw [h1, if_pos h]
  · intro h; rw [h1, if_neg (not_lt.mpr h)]

/-- C4 witness at the concrete ratio series `[3]`, month 0. -/
theorem allowance_factor_step_witness :
    (0:ℕ) < ([3] : List ℝ).length ∧
    (2.5 ≤ ([3] : List ℝ).getD 0 0 →
      (NetHeatingNeeds.heating_allowance_factor [3]).getD 0 0 = 0) :=
  ⟨by simp, (allowance_factor_step [3] 0 (by simp)).2.2.2.2⟩

/-- C3 counterexample: at `I_overh = 13000 ≥ 6500` the code's time fraction is
`0.05 · 13000 / 6500 = 0.1`, not `0.05`, refuting "for every I_overh ≥ 6500,
f_cool = 0.05". -/
theorem time_fraction_cap_counterexample :
    (6500 : ℝ) ≤ 13000 ∧ OverHeatingRisk.time_fraction_over_25C 13000 ≠ 0.05 := by
  constructor
  · norm_num
  · unfold OverHeatingRisk.time_fraction_over_25C
    norm_num [min_def, max_def]

/-- C3 (amended): the yearly overheating scalars are clamped to `[0,1]` via
min/max with the stated formulas; `p_cool = 0` for `I ≤ 1000`, `p_cool = 1`
for `I ≥ 6500`, `f_cool = 0` for `I ≤ 0`, and `f_cool = 0.05` at `I = 6500`
exactly (beyond 6500 the code's `f_cool` keeps growing up to its cap of 1). -/
theorem overheating_scalars_clamped (I : ℝ) :
    OverHeatingRisk.active_cooling_probability I
        = max 0 (min ((I - 1000) / (6500 - 1000)) 1) ∧
    OverHeatingRisk.time_fraction_over_25C I = max 0 (min (0.05 * I / 6500) 1) ∧
    (I ≤ 1000 → OverHeatingRisk.active_cooling_probability I = 0) ∧
    (6500 ≤ I → OverHeatingRisk.active_cooling_probability I = 1) ∧
    (I ≤ 0 → OverHeatingRisk.time_fraction_over_25C I = 0) ∧
    OverHeatingRisk.time_fraction_over_25C 6500 = 0.05 := by
  refine ⟨rfl, rfl, ?_, ?_, ?_, ?_⟩
  · intro h
    unfold OverHeatingRisk.active_cooling_probability
    have hx : (I - 1000) / (6500 - 1000) ≤ 0 := by
      apply div_nonpos_of_nonpos_of_nonneg <;> norm_num <;> linarith
    rw [min_eq_left (by linarith), max_eq_left hx]
  · intro h
    unfold OverHeatingRisk.active_cooling_probability
    have hx : 1 ≤ (I - 1000) / (6500 - 1000) := by
      rw [le_div_iff (by norm_num)]; linarith
    rw [min_eq_right hx, max_eq_right (by norm_num)]
  · intro h
    unfold OverHeatingRisk.time_fraction_over_25C
    have hx : 0.05 * I / 6500 ≤ 0 := by
      apply div_nonpos_of_nonpos_of_nonneg
      · nlinarith
      · norm_num
    rw [min_eq_left (by linarith), max_eq_left hx]
  · unfold OverHeatingRisk.time_fraction_over_25C
    norm_num [min_def, max_def]

/-- C3 witness: the amended clamp facts applied at `I = 500`. -/
theorem overheating_scalars_clamped_witness :
    (500 : ℝ) ≤ 1000 ∧ OverHeatingRisk.active_cooling_probability 500 = 0 :=
  ⟨by norm_num, (overheating_scalars_clamped 500).2.2.1 (by norm_num)⟩

/-- C5: for positive volume, the three purpose-specific internal-gains series
coincide and equal the piecewise volume formula times the month length; the
source's `V_sec_i / V_EPR` factor is numerically 1. -/
theorem internal_gains_piecewise (V : ℝ) (hV : 0 < V) (t_m : List ℝ) :
    InternalGains.Q_int_heat_sec_i_m V t_m = InternalGains.Q_int_overh_sec_i_m V t_m ∧
    InternalGains.Q_int_heat_sec_i_m V t_m = InternalGains.Q_int_cool_sec_i_m V t_m ∧
    InternalGains.Q_int_heat_sec_i_m V t_m
      = if V ≤ 192 then t_m.map (fun t => (1.41 * V + 78) * t)
        else t_m.map (fun t => (0.67 * V + 220) * t) := by
  refine ⟨rfl, rfl, ?_⟩
  have hVV : V / V = 1 := div_self (ne_of_gt hV)
  unfold InternalGains.Q_int_heat_sec_i_m InternalGains.internal_gains
  split <;> simp [hVV]

/-- C5 witness at `V = 100 ≤ 192`, `t_m = [1]`. -/
theorem internal_gains_piecewise_witness :
    (0:ℝ) < 100 ∧
    InternalGains.Q_int_heat_sec_i_m 100 [1] = InternalGains.Q_int_overh_sec_i_m 100 [1] :=
  ⟨by norm_num, (internal_gains_piecewise 100 (by norm_num) [1]).1⟩

/-- C9 counterexample: a length-2 monthly series is not rejected; the
allowance-factor computation produces a length-2 result (`[0, 0]` for ratios
`[3, 3]`), so no dimension check precedes the computation. -/
theorem no_dimension_check_counterexample :
    NetHeatingNeeds.heating_allowance_factor [3, 3] = [0, 0] := by
  unfold NetHeatingNeeds.heating_allowance_factor
  norm_num

/-- C9 (amended): the source performs no dimension validation; every stage is
total and maps a monthly series of any length `n` to a result of length `n`
(the full heating pipeline included, given equal-length inputs). -/
theorem monthly_length_no_validation (gamma_m : List ℝ) (C Ht Hv : ℝ)
    (Qs Qi Qt Qv : List ℝ) (n : ℕ)
    (hs : Qs.length = n) (hi : Qi.length = n) (ht : Qt.length = n) (hv : Qv.length = n) :
    (NetHeatingNeeds.heating_allowance_factor gamma_m).length = gamma_m.length ∧
    (NetHeatingNeeds.utilization_factor_heating C Ht Hv gamma_m).length = gamma_m.length ∧
    (NetHeatingNeeds.Q_heat_net_sec_i_m Qs Qi Qt Qv C Ht Hv).length = n := by
  refine ⟨?_, ?_, ?_⟩
  · simp [NetHeatingNeeds.heating_allowance_factor]
  · simp [NetHeatingNeeds.utilization_factor_heating]
  · simp [NetHeatingNeeds.Q_heat_net_sec_i_m, NetHeatingNeeds.net_heating_demand,
      NetHeatingNeeds.heating_allowance_factor, NetHeatingNeeds.utilization_factor_heating,
      NetHeatingNeeds.heat_balance_ratio, List.length_zipWith, hs, hi, ht, hv]

/-- C9 witness: the full heating pipeline on length-2 inputs (not 12)
produces a length-2 result. -/
theorem monthly_length_no_validation_witness :
    ([1, 1] : List ℝ).length = 2 ∧
    (NetHeatingNeeds.Q_heat_net_sec_i_m [1, 1] [1, 1] [1, 1] [1, 1] 1 1 1).length = 2 :=
  ⟨by simp, (monthly_length_no_validation [] 1 1 1 [1, 1] [1, 1] [1, 1] [1, 1] 2
    (by simp) (by simp) (by simp) (by simp)).2.2⟩

/-- C1: the utilization factor is computed monthly with `τ = C/(H_trans+H_vent)`
and `a = 1 + τ/54000` (the month's `H_vent` for the cooling variant), as
`a/(a+1)` exactly when the ratio equals 1 and `(1-r^a)/(1-r^(a+1))` otherwise;
the branch test is exact equality. -/
theorem utilization_factor_monthly_formula
    (C Ht Hv : ℝ) (hC : 0 < C) (hHt : 0 < Ht) (hHv : 0 < Hv)
    (gamma_m : List ℝ) (hlen : gamma_m.length = 12)
    (Hvm lambda_m : List ℝ) (hHvm : Hvm.length = 12) (hlam : lambda_m.length = 12)
    (m : ℕ) (hm : m < 12) :
    ((NetHeatingNeeds.utilization_factor_heating C Ht Hv gamma_m).getD m 0
      = (if gamma_m.getD m 0 = 1
         then (1 + C / (Ht + Hv) / 54000) / (1 + C / (Ht + Hv) / 54000 + 1)
         else (1 - gamma_m.getD m 0 ^ (1 + C / (Ht + Hv) / 54000))
              / (1 - gamma_m.getD m 0 ^ (1 + C / (Ht + Hv) / 54000 + 1)))) ∧
    ((NetCoolingNeeds.utilization_factor_cooling C Ht Hvm lambda_m).getD m 0
      = (if lambda_m.getD m 0 = 1
         then (1 + C / (Ht + Hvm.getD m 0) / 54000)
              / (1 + C / (Ht + Hvm.getD m 0) / 54000 + 1)
         else (1 - lambda_m.getD m 0 ^ (1 + C / (Ht + Hvm.getD m 0) / 54000))
              / (1 - lambda_m.getD m 0 ^ (1 + C / (Ht + Hvm.getD m 0) / 54000 + 1)))) := by
  constructor
  · simp only [NetHeatingNeeds.utilization_factor_heating]
    rw [getD_map_of_lt _ _ m (by omega) 0 0]
  · simp only [NetCoolingNeeds.utilization_factor_cooling]
    rw [getD_zipWith_of_lt _ _ _ m (by simpa [hHvm] using hm) (by omega) 0 0 0,
      getD_map_of_lt _ _ m (by omega) 0 0]

/-- C1 witness: at `C = 54000`, `H_trans = H_vent = 1` (so `a = 3/2`) and a
constant ratio series of ones, month 0 takes the singular branch `a/(a+1)`. -/
theorem utilization_factor_monthly_formula_witness :
    (NetHeatingNeeds.utilization_factor_heating 54000 1 1
      [1, 1, 1, 1, 1, 1, 1, 1, 1, 1, 1, 1]).getD 0 0 = (3 / 2) / (3 / 2 + 1) := by
  have h := (utilization_factor_monthly_formula 54000 1 1 (by norm_num) (by norm_num)
    (by norm_num) [1, 1, 1, 1, 1, 1, 1, 1, 1, 1, 1, 1] (by simp)
    [1, 1, 1, 1, 1, 1, 1, 1, 1, 1, 1, 1] [1, 1, 1, 1, 1, 1, 1, 1, 1, 1, 1, 1]
    (by simp) (by simp) 0 (by norm_num)).1
  rw [h]
  norm_num

/-- C2: monthly net heating demand is
`(Q_trans + Q_vent − η·(Q_int + Q_solar)) · f_allow`, with no non-negativity
clamp: with the allowance factor 1 and utilized gains exceeding the losses the
result is negative (concretely `[-10]` for gains 20, losses 10, η = 1, f = 1). -/
theorem net_heating_demand_formula_no_clamp
    (Qs Qi Qt Qv : List ℝ) (C Ht Hv : ℝ)
    (hs : Qs.length = 12) (hilen : Qi.length = 12)
    (ht : Qt.length = 12) (hv : Qv.length = 12)
    (m : ℕ) (hm : m < 12) :
    ((NetHeatingNeeds.Q_heat_net_sec_i_m Qs Qi Qt Qv C Ht Hv).getD m 0
      = (Qt.getD m 0 + Qv.getD m 0
          - (NetHeatingNeeds.utilization_factor_heating C Ht Hv
              (NetHeatingNeeds.heat_balance_ratio Qs Qi Qt Qv)).getD m 0
            * (Qi.getD m 0 + Qs.getD m 0))
        * (NetHeatingNeeds.heating_allowance_factor
            (NetHeatingNeeds.heat_balance_ratio Qs Qi Qt Qv)).getD m 0) ∧
    NetHeatingNeeds.net_heating_demand [10] [10] [5] [5] [1] [1] = [-10] := by
  have hγlen : (NetHeatingNeeds.heat_balance_ratio Qs Qi Qt Qv).length = 12 := by
    simp [NetHeatingNeeds.heat_balance_ratio, List.length_zipWith, hs, hilen, ht, hv]
  constructor
  · simp only [NetHeatingNeeds.Q_heat_net_sec_i_m]
    rw [net_heating_demand_getD Qs Qi Qt Qv _ _ m (by omega) (by omega) (by omega) (by omega)
      (by simpa [NetHeatingNeeds.utilization_factor_heating, hγlen] using hm)
      (by simpa [NetHeatingNeeds.heating_allowance_factor, hγlen] using hm)]
  · unfold NetHeatingNeeds.net_heating_demand
    norm_num

/-- C2 witness: the formula at all-ones length-12 inputs, month 0. -/
theorem net_heating_demand_formula_no_clamp_witness :
    NetHeatingNeeds.net_heating_demand [10] [10] [5] [5] [1] [1] = [-10] :=
  (net_heating_demand_formula_no_clamp
    [1, 1, 1, 1, 1, 1, 1, 1, 1, 1, 1, 1] [1, 1, 1, 1, 1, 1, 1, 1, 1, 1, 1, 1]
    [1, 1, 1, 1, 1, 1, 1, 1, 1, 1, 1, 1] [1, 1, 1, 1, 1, 1, 1, 1, 1, 1, 1, 1]
    1 1 1 (by simp) (by simp) (by simp) (by simp) 0 (by norm_num)).2

/-- C6: monthly net cooling demand is
`p_cool · (1 − 0) · (Q_int + Q_solar − η·(Q_trans + Q_vent)) · f_allow`, with
the cooling ratio λ the inverted loss-over-gain quotient and the single yearly
scalar `p_cool` multiplying every month. -/
theorem net_cooling_demand_formula
    (Qs Qi Qt Qv : List ℝ) (C Ht : ℝ) (Hvm : List ℝ) (p : ℝ)
    (hs : Qs.length = 12) (hilen : Qi.length = 12)
    (ht : Qt.length = 12) (hv : Qv.length = 12) (hHvm : Hvm.length = 12)
    (m : ℕ) (hm : m < 12) :
    ((NetCoolingNeeds.Q_cool_net_sec_i_m Qs Qi Qt Qv C Ht Hvm p).getD m 0
      = p * (1 - 0) * (Qi.getD m 0 + Qs.getD m 0
          - (NetCoolingNeeds.utilization_factor_cooling C Ht Hvm
              (NetCoolingNeeds.heat_balance_ratio Qs Qi Qt Qv)).getD m 0
            * (Qt.getD m 0 + Qv.getD m 0))
        * (NetCoolingNeeds.cooling_allowance_factor
            (NetCoolingNeeds.heat_balance_ratio Qs Qi Qt Qv)).getD m 0) ∧
    ((NetCoolingNeeds.heat_balance_ratio Qs Qi Qt Qv).getD m 0
      = (Qt.getD m 0 + Qv.getD m 0) / (Qi.getD m 0 + Qs.getD m 0)) := by
  have hlamlen : (NetCoolingNeeds.heat_balance_ratio Qs Qi Qt Qv).length = 12 := by
    simp [NetCoolingNeeds.heat_balance_ratio, List.length_zipWith, hs, hilen, ht, hv]
  constructor
  · simp only [NetCoolingNeeds.Q_cool_net_sec_i_m]
    rw [net_cooling_demand_getD Qs Qi Qt Qv _ _ p m (by omega) (by omega) (by omega) (by omega)
      (by simpa [NetCoolingNeeds.utilization_factor_cooling, List.length_zipWith, hHvm, hlamlen]
        using hm)
      (by simpa [NetCoolingNeeds.cooling_allowance_factor, hlamlen] using hm)]
    ring
  · simp only [NetCoolingNeeds.heat_balance_ratio]
    rw [getD_zipWith_of_lt _ _ _ m (by simp [List.length_zipWith]; omega)
        (by simp [List.length_zipWith]; omega) 0 0 0,
      getD_zipWith_of_lt _ _ _ m (by omega) (by omega) 0 0,
      getD_zipWith_of_lt _ _ _ m (by omega) (by omega) 0 0]

/-- C6 witness: the inverted-ratio conjunct at all-ones length-12 inputs. -/
theorem net_cooling_demand_formula_witness :
    (NetCoolingNeeds.heat_balance_ratio
      [1, 1, 1, 1, 1, 1, 1, 1, 1, 1, 1, 1] [1, 1, 1, 1, 1, 1, 1, 1, 1, 1, 1, 1]
      [1, 1, 1, 1, 1, 1, 1, 1, 1, 1, 1, 1] [1, 1, 1, 1, 1, 1, 1, 1, 1, 1, 1, 1]).getD 0 0
      = (([1, 1, 1, 1, 1, 1, 1, 1, 1, 1, 1, 1] : List ℝ).getD 0 0
          + ([1, 1, 1, 1, 1, 1, 1, 1, 1, 1, 1, 1] : List ℝ).getD 0 0)
        / (([1, 1, 1, 1, 1, 1, 1, 1, 1, 1, 1, 1] : List ℝ).getD 0 0
          + ([1, 1, 1, 1, 1, 1, 1, 1, 1, 1, 1, 1] : List ℝ).getD 0 0) :=
  (net_cooling_demand_formula
    [1, 1, 1, 1, 1, 1, 1, 1, 1, 1, 1, 1] [1, 1, 1, 1, 1, 1, 1, 1, 1, 1, 1, 1]
    [1, 1, 1, 1, 1, 1, 1, 1, 1, 1, 1, 1] [1, 1, 1, 1, 1, 1, 1, 1, 1, 1, 1, 1]
    1 1 [1, 1, 1, 1, 1, 1, 1, 1, 1, 1, 1, 1] 1
    (by simp) (by simp) (by simp) (by simp) (by simp) 0 (by norm_num)).2

/-- The per-month utilization value lies in `[0,1]` for `a > 1` and a
non-negative ratio (either branch of the source's conditional). -/
theorem eta_branch_mem_Icc (a gamma : ℝ) (ha : 1 < a) (hγ : 0 ≤ gamma) :
    (if gamma = 1 then a / (a + 1)
     else (1 - gamma ^ a) / (1 - gamma ^ (a + 1))) ∈ Set.Icc (0:ℝ) 1 := by
  rw [Set.mem_Icc]
  by_cases h1 : gamma = 1
  · rw [if_pos h1]
    constructor
    · apply div_nonneg <;> linarith
    · rw [div_le_one (by linarith)]; linarith
  · rw [if_neg h1]
    rcases eq_or_lt_of_le hγ with h0 | h0
    · rw [← h0, Real.zero_rpow (by linarith), Real.zero_rpow (by linarith)]
      norm_num
    · rcases lt_trichotomy gamma 1 with hlt | heq | hgt
      · have hxa : gamma ^ a < 1 := Real.rpow_lt_one hγ hlt (by linarith)
        have hya : gamma ^ (a + 1) < gamma ^ a :=
          Real.rpow_lt_rpow_of_exponent_gt h0 hlt (by linarith)
        have hypos : 0 < gamma ^ (a + 1) := Real.rpow_pos_of_pos h0 _
        constructor
        · apply div_nonneg <;> linarith
        · rw [div_le_one (by linarith)]; linarith
      · exact absurd heq h1
      · have hxa : 1 < gamma ^ a :=
          (Real.one_lt_rpow_iff_of_pos h0).mpr (Or.inl ⟨hgt, by linarith⟩)
        have hya : gamma ^ a < gamma ^ (a + 1) :=
          Real.rpow_lt_rpow_of_exponent_lt hgt (by linarith)
        have heq2 : (1 - gamma ^ a) / (1 - gamma ^ (a + 1))
            = (gamma ^ a - 1) / (gamma ^ (a + 1) - 1) := by
          rw [show (1 - gamma ^ a) = -(gamma ^ a - 1) by ring,
            show (1 - gamma ^ (a + 1)) = -(gamma ^ (a + 1) - 1) by ring, neg_div_neg_eq]
        rw [heq2]
        constructor
        · apply div_nonneg <;> linarith
        · rw [div_le_one (by linarith)]; linarith

/-- C7: for strictly positive `C`, `H_trans`, `H_vent` (so `a > 1`) and a month
whose heat-balance ratio is non-negative, both the heating utilization factor
and the overheating utilization factor (monthly `a`) lie in `[0, 1]`. -/
theorem utilization_factor_in_unit_interval
    (C Ht Hv : ℝ) (hC : 0 < C) (hHt : 0 < Ht) (hHv : 0 < Hv)
    (gamma_m Hvm : List ℝ) (hHvm : ∀ h ∈ Hvm, 0 < h)
    (hlen : Hvm.length = gamma_m.length)
    (m : ℕ) (hm : m < gamma_m.length) (hg : 0 ≤ gamma_m.getD m 0) :
    (NetHeatingNeeds.utilization_factor_heating C Ht Hv gamma_m).getD m 0
        ∈ Set.Icc (0:ℝ) 1 ∧
    (OverHeatingRisk.utilization_factor_overheating C Ht Hvm gamma_m).getD m 0
        ∈ Set.Icc (0:ℝ) 1 := by
  constructor
  · have ha : 1 < 1 + C / (Ht + Hv) / 54000 := by
      have h : 0 < C / (Ht + Hv) / 54000 := by positivity
      linarith
    simp only [NetHeatingNeeds.utilization_factor_heating]
    rw [getD_map_of_lt _ _ m hm 0 0]
    exact eta_branch_mem_Icc _ _ ha hg
  · have hmem : Hvm.getD m 0 ∈ Hvm := by
      rw [List.getD_eq_getElem _ _ (by omega)]
      exact List.getElem_mem _
    have hh : 0 < Hvm.getD m 0 := hHvm _ hmem
    have ha : 1 < 1 + C / (Ht + Hvm.getD m 0) / 54000 := by
      have h : 0 < C / (Ht + Hvm.getD m 0) / 54000 := by positivity
      linarith
    simp only [OverHeatingRisk.utilization_factor_overheating]
    rw [getD_zipWith_of_lt _ _ _ m (by simpa [hlen] using hm) hm 0 0 0,
      getD_map_of_lt _ _ m (by omega) 0 0]
    exact eta_branch_mem_Icc _ _ ha hg

/-- C7 witness at `C = 54000`, `H_trans = H_vent = 1`, ratio series `[2]`. -/
theorem utilization_factor_in_unit_interval_witness :
    (NetHeatingNeeds.utilization_factor_heating 54000 1 1 [2]).getD 0 0
      ∈ Set.Icc (0:ℝ) 1 :=
  (utilization_factor_in_unit_interval 54000 1 1 (by norm_num) (by norm_num) (by norm_num)
    [2] [1] (by intro h hh; rw [List.mem_singleton] at hh; rw [hh]; norm_num) rfl
    0 (by simp) (by norm_num)).1

/-- C8: with reduction factors 1, DHW demand is homogeneous in `t_m`; the
per-bath and per-sink demands scale as `1/N_bath` and `1/N_sink`; and the
total demand is independent of the choice of positive `N_bath`, `N_sink`. -/
theorem dhw_scaling (V : ℝ) (hV : 0 < V) (Nb Ns : ℝ) (hNb : 0 < Nb) (hNs : 0 < Ns)
    (t_m : List ℝ) (c : ℝ) :
    PyFunctions.net_dhw_demand V (t_m.map (fun t => c * t)) Nb Ns
      = (PyFunctions.net_dhw_demand V t_m Nb Ns).map (fun q => c * q) ∧
    PyFunctions.net_dhw_demand_bath V t_m Nb 1
      = (PyFunctions.net_dhw_demand_bath V t_m 1 1).map (fun q => 1 / Nb * q) ∧
    PyFunctions.net_dhw_demand_sink V t_m Ns 1
      = (PyFunctions.net_dhw_demand_sink V t_m 1 1).map (fun q => 1 / Ns * q) ∧
    PyFunctions.net_dhw_demand V t_m Nb Ns = PyFunctions.net_dhw_demand V t_m 1 1 := by
  have hNb0 : Nb ≠ 0 := ne_of_gt hNb
  have hNs0 : Ns ≠ 0 := ne_of_gt hNs
  refine ⟨?_, ?_, ?_, ?_⟩
  · simp only [PyFunctions.net_dhw_demand, PyFunctions.net_dhw_demand_bath,
      PyFunctions.net_dhw_demand_sink, List.map_map, List.zipWith_map, List.zipWith_same,
      List.map_zipWith]
    congr 1
    funext t
    simp only [Function.comp]
    ring
  · simp only [PyFunctions.net_dhw_demand_bath, List.map_map]
    congr 1
    funext t
    simp only [Function.comp]
    ring
  · simp only [PyFunctions.net_dhw_demand_sink, List.map_map]
    congr 1
    funext t
    simp only [Function.comp]
    ring
  · simp only [PyFunctions.net_dhw_demand, PyFunctions.net_dhw_demand_bath,
      PyFunctions.net_dhw_demand_sink, List.zipWith_map, List.zipWith_same]
    congr 1
    funext t
    field_simp

/-- C8 witness: the total DHW demand at `V = 100`, `t_m = [1]` agrees for
`(N_bath, N_sink) = (2, 4)` and `(1, 1)`. -/
theorem dhw_scaling_witness :
    (0:ℝ) < 100 ∧
    PyFunctions.net_dhw_demand 100 [1] 2 4 = PyFunctions.net_dhw_demand 100 [1] 1 1 :=
  ⟨by norm_num,
    (dhw_scaling 100 (by norm_num) 2 4 (by norm_num) (by norm_num) [1] 5).2.2.2⟩

/-- C10: the class-based heating pipeline (`NetHeatingNeeds`) and the
free-function variant (`net_heating_demand` in the `python-files` tree)
produce equal net monthly heating demand series on identical inputs. -/
theorem class_function_heating_equiv
    (C Ht Hv : ℝ) (hC : 0 < C) (hHt : 0 < Ht) (hHv : 0 < Hv)
    (Qs Qi Qt Qv : List ℝ) :
    NetHeatingNeeds.Q_heat_net_sec_i_m Qs Qi Qt Qv C Ht Hv
      = PyFunctions.net_heating_demand C Ht Hv Qs Qi Qt Qv := rfl

/-- C10 witness at concrete singleton inputs. -/
theorem class_function_heating_equiv_witness :
    (0:ℝ) < 1 ∧
    NetHeatingNeeds.Q_heat_net_sec_i_m [1] [1] [1] [1] 1 1 1
      = PyFunctions.net_heating_demand 1 1 1 [1] [1] [1] [1] :=
  ⟨by norm_num,
    class_function_heating_equiv 1 1 1 (by norm_num) (by norm_num) (by norm_num)
      [1] [1] [1] [1]⟩
